import Mathlib

/-!
Verification of `clone_client_sync/angle_estimator.py`.

The Python source is shallowly embedded over `ℝ`:
* machine floats become real numbers;
* numpy element-wise array operations become pointwise operations on
  functions `ι → ℝ` where `ι` is the (finite) index shape of the array;
* `collections.deque(maxlen=P)` becomes a `List` kept to its last `P`
  elements on push;
* Python exceptions become `Except PyErr`.
-/

namespace CloneSync

/-- Python exception kinds relevant to `angle_estimator.py`. -/
inductive PyErr where
  | typeError
  | valueError
  | indexError
deriving DecidableEq

noncomputable section

/-! ## NaiveMappingEstimatorBase (lines 41-118) -/

/-- `NaiveMappingEstimatorBase.Config` (lines 42-48). The source stores
`t_offset`, `dec_len` as ints and `gain_xy`, `gain_z`, `supply` as floats;
all arithmetic on them is float arithmetic, embedded over `ℝ`. -/
structure Config where
  t_offset : ℝ
  dec_len : ℝ
  gain_xy : ℝ
  gain_z : ℝ
  supply : ℝ

/-- `self.t_dec_len_factor = FH3D04_BASIC_DEC_LEN / config.dec_len` (line 53). -/
def tDecLenFactor (cfg : Config) : ℝ := 512 / cfg.dec_len

/-- `self.h_config_ratio_z` (lines 55-62), divisions left-associated as in the source. -/
def hConfigRatioZ (cfg : Config) : ℝ :=
  1 / (cfg.gain_z / 64 * cfg.dec_len / 512 * cfg.supply / 2.6)

/-- `self.h_config_factor_xy` (lines 64-71). -/
def hConfigFactorXY (cfg : Config) : ℝ :=
  1 / (cfg.gain_xy / 128 * cfg.dec_len / 512 * cfg.supply / 2.6)

/-- `NaiveMappingEstimatorBase._calculate_temp` (lines 73-78); returns
`(t_val_deg_c, t_val_pp_prime)`. -/
def calculateTemp (cfg : Config) (t_val : ℝ) : ℝ × ℝ :=
  let t_val_pp := t_val - cfg.t_offset
  let t_val_pp_prime := t_val_pp * tDecLenFactor cfg
  (t_val_pp_prime * 0.072484471 + 25.0, t_val_pp_prime)

/-- `NaiveMappingEstimatorBase._s_z` (lines 80-86). -/
def sZ (t : ℝ) : ℝ :=
  2.6029e-14 * t ^ 3 + 5.6780e-10 * t ^ 2 - 4.3553e-6 * t + 0.011187

/-- `NaiveMappingEstimatorBase._s_xy` (lines 88-94). -/
def sXY (t : ℝ) : ℝ :=
  2.4864e-14 * t ^ 3 + 5.4240e-10 * t ^ 2 + 4.1604e-6 * t + 0.010687

/-- `NaiveMappingEstimatorBase._calculate_teslas_z` (lines 96-100). -/
def calculateTeslasZ (cfg : Config) (h_val t_pp_prime : ℝ) : ℝ :=
  h_val * hConfigRatioZ cfg * sZ t_pp_prime

/-- `NaiveMappingEstimatorBase._calculate_teslas_xy` (lines 102-106). -/
def calculateTeslasXY (cfg : Config) (h_val t_pp_prime : ℝ) : ℝ :=
  h_val * hConfigFactorXY cfg * sXY t_pp_prime

/-- `NaiveMappingEstimatorBase.calculate_sensor` (lines 108-118); returns
`(temperature_celsius, flux vector)`. -/
def calculateSensor (cfg : Config) (x y z temperature : ℝ) : ℝ × (Fin 3 → ℝ) :=
  let tp := calculateTemp cfg temperature
  (tp.1,
    ![calculateTeslasXY cfg x tp.2,
      calculateTeslasXY cfg y tp.2,
      calculateTeslasZ cfg z tp.2])

/-! ## Outlier filter state and numpy primitives (lines 145-200) -/

/-- `np.ndarray.clip(min=lo, max=hi)` on one element: numpy computes
`minimum(hi, maximum(x, lo))`, so when `lo > hi` every output equals `hi`. -/
def npClip (x lo hi : ℝ) : ℝ := min hi (max x lo)

/-- `np.mean(pop, axis=0)`: per-index mean over the stacked population. -/
def npMean {ι : Type} (pop : List (ι → ℝ)) : ι → ℝ :=
  fun i => (pop.map (fun s => s i)).sum / pop.length

/-- `np.std(pop, axis=0)` (population standard deviation, `ddof = 0`). -/
def npStd {ι : Type} (pop : List (ι → ℝ)) : ι → ℝ :=
  fun i => Real.sqrt ((pop.map (fun s => (s i - npMean pop i) ^ 2)).sum / pop.length)

/-- `collections.deque(maxlen=P).append(v)`: keep only the last `P` elements,
newest at the tail.  For `P = 0` the deque stays empty, matching `deque(maxlen=0)`. -/
def dequePush {ι : Type} (P : ℕ) (q : List (ι → ℝ)) (v : ι → ℝ) : List (ι → ℝ) :=
  (q ++ [v]).drop (q.length + 1 - P)

/-- The outlier-filter state of an `Interpol` instance:
`self._filter_outliers_population` (capacity) and `self._filt_samples` (the deque,
newest element last). `ι` is the index shape of the stacked feature array. -/
structure OutlierState (ι : Type) where
  capacity : ℕ
  samples : List (ι → ℝ)

/-- The element-wise clipped vector computed by `Interpol.filter_outliers`
once the FIFO is full (lines 193-198): clip to `[mean - k·σ, mean + k·σ]`. -/
def clipResult {ι : Type} (st : OutlierState ι) (arr : ι → ℝ) (sig_mul : ℝ) : ι → ℝ :=
  fun i =>
    npClip (arr i)
      (npMean st.samples i - sig_mul * npStd st.samples i)
      (npMean st.samples i + sig_mul * npStd st.samples i)

/-- `Interpol.filter_outliers` (lines 185-200).  While the deque holds fewer than
`capacity` samples: append the raw sample, return `none` (Python `None`).  Once
full: return the clipped vector; this function itself appends nothing then. -/
def filter_outliers {ι : Type} (st : OutlierState ι) (arr_flat : ι → ℝ) (sig_mul : ℝ) :
    Option (ι → ℝ) × OutlierState ι :=
  if st.samples.length < st.capacity then
    (none, { st with samples := dequePush st.capacity st.samples arr_flat })
  else
    (some (clipResult st arr_flat sig_mul), st)

/-- The outlier-filtering stage of `Interpol.get_angles` (lines 243-250): call
`filter_outliers`; on `None` return `None`; otherwise append the *returned*
(clipped) vector to `self._filt_samples` and continue with it. -/
def outlierStage {ι : Type} (st : OutlierState ι) (arr : ι → ℝ) (sig_mul : ℝ) :
    Option (ι → ℝ) × OutlierState ι :=
  match filter_outliers st arr sig_mul with
  | (none, st1) => (none, st1)
  | (some r, st1) => (some r, { st1 with samples := dequePush st1.capacity st1.samples r })

/-- The outlier stage iterated over a stream `f` of input arrays starting from
state `st0`: `outlierRun st0 k f n` is the state before call `n` (0-indexed). -/
def outlierRun {ι : Type} (st0 : OutlierState ι) (sig_mul : ℝ) (f : ℕ → ι → ℝ) :
    ℕ → OutlierState ι
  | 0 => st0
  | n + 1 => (outlierStage (outlierRun st0 sig_mul f n) (f n) sig_mul).2

/-- The value returned by call `n` (0-indexed) of the iterated outlier stage. -/
def outlierRunOut {ι : Type} (st0 : OutlierState ι) (sig_mul : ℝ) (f : ℕ → ι → ℝ)
    (n : ℕ) : Option (ι → ℝ) :=
  (outlierStage (outlierRun st0 sig_mul f n) (f n) sig_mul).1

/-- The freshly constructed filter state: `deque(maxlen=P)` is empty (line 153). -/
def emptyOutlier (ι : Type) (P : ℕ) : OutlierState ι := ⟨P, []⟩

/-! ## IIR filter (lines 202-213) -/

/-- `np.average(np.stack([sample, state]), axis=0, weights=[w, 1-w])`:
the weighted average normalised by the sum of the weights. -/
def npAverage2 {ι : Type} (w : ℝ) (sample state : ι → ℝ) : ι → ℝ :=
  fun i => (w * sample i + (1 - w) * state i) / (w + (1 - w))

/-- One post-seeding step of `Interpol._filter_iir` (lines 207-212). -/
def iirStep {ι : Type} (w : ℝ) (sample state : ι → ℝ) : ι → ℝ :=
  npAverage2 w sample state

/-- `Interpol._filter_iir` (lines 202-213): seed the state from the mean of
`self._filt_samples` when unset, then average; returns
`(filtered output, new IIR state)` (they coincide, as in the source). -/
def filterIIR {ι : Type} (w : ℝ) (iirState : Option (ι → ℝ))
    (filtSamples : List (ι → ℝ)) (arr_flat : ι → ℝ) : (ι → ℝ) × (ι → ℝ) :=
  let seeded := iirState.getD (npMean filtSamples)
  let out := iirStep w arr_flat seeded
  (out, out)

/-- `_filter_iir` iterated on a constant input `v` from state `s0`
(the recurrence of the IIR convergence property). -/
def iirIter {ι : Type} (w : ℝ) (v s0 : ι → ℝ) : ℕ → (ι → ℝ)
  | 0 => s0
  | n + 1 => iirStep w v (iirIter w v s0 n)

/-! ## `Interpol.__init__` validation behaviour (lines 121-165)

The constructor first loads the calibration mapping and fits the RBF
interpolators (lines 134-143, modelled separately below), then runs the
weight check of line 150 and creates `deque(maxlen=P)` (line 153).  Only the
latter two can reject the filter configuration; they are modelled here, with
the loaded interpolators abstracted away. -/

/-- The validation part of `Interpol.__init__`: line 150 raises `ValueError`
when `1.0 < filter_iir_new_sample_weight < 0.0` (a Python chained comparison,
i.e. the conjunction of both inequalities); line 153's `deque(maxlen=P)`
raises `ValueError` when the maxlen is negative.  On success the state holds
the capacity and the weight. -/
def interpolInit (P : ℤ) (w : ℝ) : Except PyErr (ℕ × ℝ) :=
  if 1 < w ∧ w < 0 then Except.error PyErr.valueError
  else if P < 0 then Except.error PyErr.valueError
  else Except.ok (P.toNat, w)

/-! ## Sensors, pixel remapping and `Interpol.get_angles` (lines 26-38, 215-260) -/

/-- One `MagneticSensor.MagneticPixel`: raw counts for the three field axes. -/
structure Pixel where
  x : ℝ
  y : ℝ
  z : ℝ

/-- One `MagneticSensor`: a repeated field of pixels plus a raw temperature count. -/
structure Sensor where
  pixels : List Pixel
  temperature : ℝ

/-- `remap_pixels` (lines 30-38): returns `[pixels[3], pixels[2], pixels[0],
pixels[1]]`; indexing a shorter list raises `IndexError`. -/
def remap_pixels (ps : List Pixel) : Except PyErr (Fin 4 → Pixel) :=
  match ps.get? 3, ps.get? 2, ps.get? 0, ps.get? 1 with
  | some a, some b, some c, some d => Except.ok ![a, b, c, d]
  | _, _, _, _ => Except.error PyErr.indexError

/-- The column permutation of `remap_axes` (lines 26-27): `b_arr[:, [0, 2, 1]]`. -/
def axisPerm : Fin 3 → Fin 3 := ![0, 2, 1]

/-- `remap_axes` (lines 26-27): `-b_arr[:, [0, 2, 1]]`. -/
def remap_axes (B : Fin 4 → Fin 3 → ℝ) : Fin 4 → Fin 3 → ℝ :=
  fun p c => -(B p (axisPerm c))

/-- The per-sensor block of the `get_angles` loop body (lines 229-238):
reorder the pixels, calibrate each, then remap the axes. -/
def sensorB (cfg : Config) (s : Sensor) : Except PyErr (Fin 4 → Fin 3 → ℝ) := do
  let ps ← remap_pixels s.pixels
  let B : Fin 4 → Fin 3 → ℝ :=
    fun pidx => (calculateSensor cfg (ps pidx).x (ps pidx).y (ps pidx).z s.temperature).2
  pure (remap_axes B)

/-- The `for idx, sensor in enumerate(sensors)` loop of `get_angles`
(lines 229-239), writing each sensor's matrix into `B_tot` (initially zeros);
writing past row `n` raises `IndexError`, as the numpy assignment would. -/
def buildBTot (cfg : Config) (n : ℕ) :
    List Sensor → ℕ → (Fin n → Fin 4 → Fin 3 → ℝ) →
    Except PyErr (Fin n → Fin 4 → Fin 3 → ℝ)
  | [], _, acc => Except.ok acc
  | s :: rest, idx, acc => do
      let B ← sensorB cfg s
      if h : idx < n then buildBTot cfg n rest (idx + 1) (Function.update acc ⟨idx, h⟩ B)
      else Except.error PyErr.indexError

/-- Row-major unflattening of `b.ravel()` on a `(4, 3)` block: position `k`
of the flattened vector is entry `(k / 3, k % 3)`. -/
def unflatten (k : Fin 12) : Fin 4 × Fin 3 :=
  (⟨k.val / 3, by have := k.isLt; omega⟩, ⟨k.val % 3, by have := k.isLt; omega⟩)

/-- The full mutable/configured state of one `Interpol` instance with `n`
fitted interpolators.  Each fitted interpolator is the function a fitted
`scipy.interpolate.RBFInterpolator` evaluates (modelled below); the filter
state indexes the stacked `(n, 12)` feature array by `Fin n × Fin 12`. -/
structure Interpol (n : ℕ) where
  interpolators : Fin n → (Fin 12 → ℝ) → Fin 2 → ℝ
  outlier : OutlierState (Fin n × Fin 12)
  filter_outliers_sigma : ℝ
  use_filter_outliers : Bool
  use_filter_iir : Bool
  iir_new_sample_weight : ℝ
  iirState : Option (Fin n × Fin 12 → ℝ)
  cfg : Config

/-- Python `sensors != m` for a list `sensors` and int `m` (line 219): a list
never equals an int, so the comparison evaluates to the boolean `True`
regardless of the list's contents or length. -/
def pyListNeInt (_sensors : List Sensor) (_m : ℤ) : Bool := true

/-- Python `len` applied to a bool (line 219): `len(True)` raises `TypeError`
(`object of type bool has no len()`), for either boolean. -/
def pyLenBool (_b : Bool) : Except PyErr ℕ := Except.error PyErr.typeError

/-- The IIR stage and final interpolation of `get_angles` (lines 252-260),
given the state after the outlier stage and the current flattened features. -/
def finishAngles {n : ℕ} (ip : Interpol n) (flat : Fin n × Fin 12 → ℝ) :
    Option (Fin n → Fin 2 → ℝ) × Interpol n :=
  let step :=
    if ip.use_filter_iir then
      let res := filterIIR ip.iir_new_sample_weight ip.iirState ip.outlier.samples flat
      (res.1, { ip with iirState := some res.2 })
    else (flat, ip)
  (some (fun bidx => step.2.interpolators bidx (fun k => step.1 (bidx, k))), step.2)

/-- The body of `get_angles` after the length guard (lines 224-260). -/
def getAnglesBody {n : ℕ} (ip : Interpol n) (sensors : List Sensor) :
    Except PyErr (Option (Fin n → Fin 2 → ℝ) × Interpol n) := do
  let BTot ← buildBTot ip.cfg n sensors 0 (fun _ _ _ => 0)
  let bFlat : Fin n × Fin 12 → ℝ :=
    fun p => BTot p.1 (unflatten p.2).1 (unflatten p.2).2
  if ip.use_filter_outliers then
    match outlierStage ip.outlier bFlat ip.filter_outliers_sigma with
    | (none, ost) => pure (none, { ip with outlier := ost })
    | (some r, ost) => pure (finishAngles { ip with outlier := ost } r)
  else
    pure (finishAngles ip bFlat)

/-- `Interpol.get_angles` (lines 215-260).  The guard of line 219 evaluates
`len(sensors != len(self.interpolators))`: the comparison yields the boolean
`True`, and `len` of a bool raises `TypeError` before anything else runs. -/
def getAngles {n : ℕ} (ip : Interpol n) (sensors : List Sensor) :
    Except PyErr (Option (Fin n → Fin 2 → ℝ) × Interpol n) :=
  match pyLenBool (pyListNeInt sensors (n : ℤ)) with
  | Except.error e => Except.error e
  | Except.ok l =>
      if l ≠ 0 then Except.error PyErr.valueError
      else getAnglesBody ip sensors

/-! ## The fitted RBF interpolator (lines 135-143)

Modelled from the spec: `scipy.interpolate.RBFInterpolator` is an external
library not present in this repository.  Per the spec (section 4.6), the fit
uses a linear radial-basis kernel with no smoothing term, i.e. it solves the
square augmented linear system of interpolation and polynomial-moment
conditions (kernel `phi(r) = -r`, monomial tail of degree 1) so that the fit
reproduces training outputs exactly at training inputs. -/

/-- The linear radial-basis kernel: `phi(r) = -r`. -/
def linearKernel (r : ℝ) : ℝ := -r

/-- Euclidean distance between two feature vectors in `ℝ^d`. -/
def euclidDist {d : ℕ} (x y : Fin d → ℝ) : ℝ :=
  Real.sqrt (∑ i, (x i - y i) ^ 2)

/-- The augmented collocation matrix of the linear-kernel RBF fit over the
training `nodes`: a kernel block, a degree-1 monomial block (constant plus
coordinates) and its transpose, and a zero corner. -/
def fitMatrix {n d : ℕ} (nodes : Fin n → Fin d → ℝ) :
    Matrix (Sum (Fin n) (Fin (d + 1))) (Sum (Fin n) (Fin (d + 1))) ℝ :=
  Matrix.of fun r c =>
    match r, c with
    | Sum.inl j, Sum.inl i => linearKernel (euclidDist (nodes j) (nodes i))
    | Sum.inl j, Sum.inr k => Fin.cases 1 (fun k0 => nodes j k0) k
    | Sum.inr k, Sum.inl i => Fin.cases 1 (fun k0 => nodes i k0) k
    | Sum.inr _, Sum.inr _ => 0

/-- The right-hand side of the fit system: training targets on the
interpolation rows, zero on the moment rows. -/
def fitRhs {n d : ℕ} (y : Fin n → ℝ) : Sum (Fin n) (Fin (d + 1)) → ℝ :=
  Sum.elim y 0

/-- Evaluation of the fitted interpolant with coefficient vector `v`
(kernel weights on `inl`, polynomial coefficients on `inr`) at a point `x`. -/
def rbfEval {n d : ℕ} (nodes : Fin n → Fin d → ℝ)
    (v : Sum (Fin n) (Fin (d + 1)) → ℝ) (x : Fin d → ℝ) : ℝ :=
  (∑ i, v (Sum.inl i) * linearKernel (euclidDist x (nodes i)))
    + v (Sum.inr 0) + ∑ k : Fin d, v (Sum.inr k.succ) * x k

/-! ## Concrete instances used by witnesses and counterexamples -/

/-- The default hardware configuration (`Config` defaults, lines 44-48). -/
def sampleConfig : Config := ⟨4000, 512, 128, 64, 2.6⟩

/-- A concrete sensor value (its contents are never reached by `get_angles`). -/
def sampleSensor : Sensor := ⟨[], 0⟩

/-- A concrete estimator with exactly one fitted interpolator and default
filter configuration. -/
def sampleInterpol : Interpol 1 :=
  ⟨fun _ _ _ => 0, ⟨10, []⟩, 3, true, true, 0.3, none, sampleConfig⟩

/-- A concrete two-element outlier population over a 1-dimensional feature:
the samples `[0]` and `[2]` (per-index mean `1`, population std `1`). -/
def samplePop : List (Fin 1 → ℝ) := [fun _ => 0, fun _ => 2]

/-- A full outlier FIFO of capacity 2 holding `samplePop`. -/
def fullOutlier : OutlierState (Fin 1) := ⟨2, samplePop⟩

/-- A concrete outlier input sample `[10]`, far outside the population band. -/
def outlierInput : Fin 1 → ℝ := fun _ => 10

/-- A concrete input sample `[5]` for the negative-sigma counterexample. -/
def clipInput5 : Fin 1 → ℝ := fun _ => 5

/-- A concrete one-dimensional calibration table: training features `0` and `1`. -/
def rbfNodes : Fin 2 → Fin 1 → ℝ := ![![0], ![1]]

/-- The training angles `10` and `20` for `rbfNodes`. -/
def rbfTargets : Fin 2 → ℝ := ![10, 20]

/-- The explicit solution of the linear-kernel fit system for `rbfNodes` and
`rbfTargets`: zero kernel weights, polynomial part `10 + 10·x`. -/
def rbfCoeffs : Sum (Fin 2) (Fin 2) → ℝ := Sum.elim ![0, 0] ![10, 10]

end

/-! # Theorems -/

noncomputable section

/-- **C2.** For every nonempty sensor sequence — including one whose length
equals the number of fitted interpolators — the guard of `get_angles`
(line 219) computes `len(sensors != len(self.interpolators))`: the comparison
of the list itself with an int yields the boolean `True`, and `len` of a bool
raises `TypeError`, so the call raises before any pixel is processed, returns
neither an angle sequence nor `NotReady`, and leaves the filter state
unmutated. -/
theorem C2_guard_always_raises {n : ℕ} (ip : Interpol n) (sensors : List Sensor)
    (_h : sensors ≠ []) :
    getAngles ip sensors = Except.error PyErr.typeError := rfl

/-- Witness for C2 at a concrete nonempty input. -/
theorem C2_guard_always_raises_witness :
    getAngles sampleInterpol [sampleSensor] = Except.error PyErr.typeError :=
  C2_guard_always_raises sampleInterpol [sampleSensor] (by simp)

/-- **C1** (code bug): with a sensor count exactly equal to the number of
fitted interpolators — the claim's precondition for success — `get_angles`
still raises `TypeError` from `len(sensors != len(self.interpolators))`
(line 219), so the claimed contract (mismatch ⇒ validation error, match ⇒
success) is not what the code implements; the code's own error message on
line 221 documents the intended count comparison. -/
theorem C1_matching_call_raises_type_error :
    [sampleSensor].length = 1 ∧
    getAngles sampleInterpol [sampleSensor] = Except.error PyErr.typeError :=
  ⟨rfl, rfl⟩

/-- **C5** (code bug): the constructor's weight check on line 150 reads
`if 1.0 < filter_iir_new_sample_weight < 0.0`, a condition no real number
satisfies, so construction succeeds for *every* IIR weight — including
weights outside `(0, 1)` such as `2.0` — contradicting the documented intent
of the check's own error message (line 151). -/
theorem C5_weight_check_never_fires (w : ℝ) :
    interpolInit 10 w = Except.ok (10, w) := by
  have h1 : ¬((1 : ℝ) < w ∧ w < 0) := by
    rintro ⟨a, b⟩
    linarith
  have h2 : ¬((10 : ℤ) < 0) := by decide
  simp [interpolInit, h1, h2]

/-- **C6** (counterexample to the claim as stated): constructing with outlier
population capacity `P = 0 ≤ 0` raises no configuration error — the
constructor never validates the capacity, and `deque(maxlen=0)` is legal. -/
theorem C6_counterexample :
    interpolInit 0 0.3 = Except.ok (0, 0.3) := by
  have h1 : ¬((1 : ℝ) < (0.3 : ℝ) ∧ (0.3 : ℝ) < 0) := by
    rintro ⟨a, b⟩
    linarith
  have h2 : ¬((0 : ℤ) < 0) := by decide
  simp [interpolInit, h1, h2]

/-- **C6** (amended): construction raises an error (a `ValueError`, from
`deque(maxlen=P)` on line 153) only for a strictly negative capacity `P < 0`;
`P = 0` is accepted without error. -/
theorem C6_negative_population_raises (P : ℤ) (w : ℝ) (hP : P < 0) :
    interpolInit P w = Except.error PyErr.valueError := by
  have h1 : ¬((1 : ℝ) < w ∧ w < 0) := by
    rintro ⟨a, b⟩
    linarith
  simp [interpolInit, h1, hP]

/-- Witness for the amended C6 at `P = -1`. -/
theorem C6_negative_population_raises_witness :
    interpolInit (-1) 0.3 = Except.error PyErr.valueError :=
  C6_negative_population_raises (-1) 0.3 (by decide)

/-! ### Helper lemmas about the deque and the outlier stage -/

/-- Pushing onto a deque of positive capacity leaves the pushed element newest. -/
theorem dequePush_getLast {ι : Type} (P : ℕ) (hP : 1 ≤ P) (q : List (ι → ℝ)) (v : ι → ℝ) :
    (dequePush P q v).getLast? = some v := by
  unfold dequePush
  rw [List.drop_append_of_le_length (by omega)]
  exact List.getLast?_concat _

/-- While under capacity, a push grows the deque by one element. -/
theorem dequePush_length {ι : Type} (P : ℕ) (q : List (ι → ℝ)) (v : ι → ℝ)
    (h : q.length + 1 ≤ P) : (dequePush P q v).length = q.length + 1 := by
  unfold dequePush
  simp only [List.length_drop, List.length_append, List.length_cons, List.length_nil]
  omega

/-- The outlier stage during warm-up: append the raw sample, report `none`. -/
theorem outlierStage_warmup {ι : Type} (st : OutlierState ι) (arr : ι → ℝ) (k : ℝ)
    (h : st.samples.length < st.capacity) :
    outlierStage st arr k =
      (none, { st with samples := dequePush st.capacity st.samples arr }) := by
  unfold outlierStage filter_outliers
  rw [if_pos h]

/-- The outlier stage once full: return the clipped vector and append it. -/
theorem outlierStage_full {ι : Type} (st : OutlierState ι) (arr : ι → ℝ) (k : ℝ)
    (h : ¬ st.samples.length < st.capacity) :
    outlierStage st arr k =
      (some (clipResult st arr k),
        { st with samples := dequePush st.capacity st.samples (clipResult st arr k) }) := by
  unfold outlierStage filter_outliers
  rw [if_neg h]

/-- Starting from the empty deque, after `n ≤ P` calls the capacity is still `P`
and the deque holds exactly `n` samples. -/
theorem outlierRun_invariant {ι : Type} (P : ℕ) (k : ℝ) (f : ℕ → ι → ℝ) (n : ℕ)
    (hn : n ≤ P) :
    (outlierRun (emptyOutlier ι P) k f n).capacity = P ∧
    (outlierRun (emptyOutlier ι P) k f n).samples.length = n := by
  induction n with
  | zero => exact ⟨rfl, rfl⟩
  | succ m ih =>
      obtain ⟨hc, hl⟩ := ih (by omega)
      have hlt : (outlierRun (emptyOutlier ι P) k f m).samples.length <
          (outlierRun (emptyOutlier ι P) k f m).capacity := by omega
      rw [outlierRun, outlierStage_warmup _ _ _ hlt]
      refine ⟨hc, ?_⟩
      simp only
      rw [dequePush_length _ _ _ (by omega), hl]

/-! ### C3: warm-up length -/

/-- **C3** (counterexample to the claim as stated): for an outlier filter of
capacity `P = 1`, the `P`-th call — the very first one — still returns
`NotReady` (`None`), not a concrete estimate: `filter_outliers` appends the
sample and returns `None` whenever the FIFO holds fewer than `P` entries,
which on the `P`-th call it still does (`P − 1` entries). -/
theorem C3_counterexample :
    outlierRunOut (emptyOutlier (Fin 1) 1) 3 (fun _ _ => 0) 0 = none := rfl

/-- **C3** (amended): for an outlier filter of capacity `P ≥ 1`, the first `P`
filtering calls of the `get_angles` outlier stage return `NotReady`, and the
`(P+1)`-th call is the first to return a concrete (clipped) estimate. -/
theorem C3_warmup_length {ι : Type} (P : ℕ) (hP : 1 ≤ P) (k : ℝ) (f : ℕ → ι → ℝ) :
    (∀ j, j < P → outlierRunOut (emptyOutlier ι P) k f j = none) ∧
    (outlierRunOut (emptyOutlier ι P) k f P).isSome = true := by
  constructor
  · intro j hj
    obtain ⟨hc, hl⟩ := outlierRun_invariant P k f j (le_of_lt hj)
    unfold outlierRunOut
    rw [outlierStage_warmup _ _ _ (by omega)]
  · obtain ⟨hc, hl⟩ := outlierRun_invariant P k f P le_rfl
    unfold outlierRunOut
    rw [outlierStage_full _ _ _ (by omega)]
    rfl

/-- Witness for the amended C3 at `P = 1`. -/
theorem C3_warmup_length_witness :
    (∀ j, j < 1 → outlierRunOut (emptyOutlier (Fin 1) 1) 3 (fun _ _ => 0) j = none) ∧
    (outlierRunOut (emptyOutlier (Fin 1) 1) 3 (fun _ _ => 0) 1).isSome = true :=
  C3_warmup_length 1 (by norm_num) 3 (fun _ _ => 0)

/-! ### C4: what gets pushed once the FIFO is full -/

/-- Mean of the concrete population `{[0], [2]}` is `1`. -/
theorem samplePop_mean : npMean samplePop 0 = 1 := by
  simp [npMean, samplePop]

/-- Population standard deviation of the concrete population `{[0], [2]}` is `1`. -/
theorem samplePop_std : npStd samplePop 0 = 1 := by
  unfold npStd
  rw [samplePop_mean]
  rw [show ((samplePop.map fun s => (s 0 - 1) ^ 2).sum / (samplePop.length : ℝ)) = 1 by
        simp [samplePop]; norm_num]
  exact Real.sqrt_one

/-- The clipped value of the outlier input `[10]` against `fullOutlier` with
`k = 3`: clipped to `mean + 3·σ = 4`. -/
theorem clipResult_outlierInput : clipResult fullOutlier outlierInput 3 0 = 4 := by
  have hm : npMean fullOutlier.samples 0 = 1 := samplePop_mean
  have hs : npStd fullOutlier.samples 0 = 1 := samplePop_std
  unfold clipResult npClip
  rw [hm, hs]
  rw [show outlierInput 0 = 10 from rfl]
  rw [show (1:ℝ) + 3 * 1 = 4 by norm_num, show (1:ℝ) - 3 * 1 = -2 by norm_num]
  rw [max_eq_left (by norm_num : (-2:ℝ) ≤ 10)]
  exact min_eq_left (by norm_num)

/-- **C4** (counterexample to the claim as stated): after a post-warm-up call
with raw sample `[10]` against the full population `{[0], [2]}` (`k = 3`),
the newest FIFO element is the *clipped* vector `[4]`, not the raw sample:
`get_angles` (line 250) appends the value returned by `filter_outliers`,
which is the clipped vector. -/
theorem C4_counterexample :
    ((outlierStage fullOutlier outlierInput 3).2).samples.getLast? ≠ some outlierInput := by
  have hfull : ¬ fullOutlier.samples.length < fullOutlier.capacity := by
    simp [fullOutlier, samplePop]
  rw [outlierStage_full _ _ _ hfull]
  simp only
  rw [dequePush_getLast _ (by norm_num [fullOutlier]) _ _]
  intro hEq
  have h0 := congrFun (Option.some.inj hEq) 0
  rw [clipResult_outlierInput, show outlierInput 0 = 10 from rfl] at h0
  norm_num at h0

/-- **C4** (amended): once the FIFO is full, every filtering call of the
`get_angles` outlier stage returns the clipped vector and pushes that clipped
vector (not the raw sample) into the FIFO, evicting the oldest entry; the
newest FIFO element after the call equals the clipped result. -/
theorem C4_full_call_pushes_clipped {ι : Type} (st : OutlierState ι) (arr : ι → ℝ)
    (k : ℝ) (h1 : 1 ≤ st.capacity) (h2 : st.samples.length = st.capacity) :
    (outlierStage st arr k).1 = some (clipResult st arr k) ∧
    ((outlierStage st arr k).2).samples.getLast? = some (clipResult st arr k) := by
  rw [outlierStage_full _ _ _ (by omega)]
  exact ⟨rfl, dequePush_getLast _ h1 _ _⟩

/-- Witness for the amended C4 on the concrete full FIFO. -/
theorem C4_full_call_pushes_clipped_witness :
    (outlierStage fullOutlier outlierInput 3).1 = some (clipResult fullOutlier outlierInput 3) ∧
    ((outlierStage fullOutlier outlierInput 3).2).samples.getLast? =
      some (clipResult fullOutlier outlierInput 3) :=
  C4_full_call_pushes_clipped fullOutlier outlierInput 3 (by norm_num [fullOutlier])
    (by simp [fullOutlier, samplePop])

/-! ### C7: the clipping band -/

/-- **C7** (counterexample to the claim as stated): the claim quantifies over
*any* configured sigma multiplier `k`, but the constructor accepts negative
`k` without validation, and for `k = -1` against the population `{[0], [2]}`
the band `[mean − k·σ, mean + k·σ] = [2, 0]` is empty, so the returned value
(`0`, since numpy's clip with `lo > hi` returns `hi`) lies outside it. -/
theorem C7_counterexample :
    (filter_outliers fullOutlier clipInput5 (-1)).1 =
      some (clipResult fullOutlier clipInput5 (-1)) ∧
    ¬ (npMean fullOutlier.samples 0 - (-1) * npStd fullOutlier.samples 0 ≤
        clipResult fullOutlier clipInput5 (-1) 0) := by
  have hm : npMean fullOutlier.samples 0 = 1 := samplePop_mean
  have hs : npStd fullOutlier.samples 0 = 1 := samplePop_std
  constructor
  · unfold filter_outliers
    rw [if_neg (by simp [fullOutlier, samplePop])]
  · have hc : clipResult fullOutlier clipInput5 (-1) 0 = 0 := by
      unfold clipResult npClip
      rw [hm, hs]
      rw [show clipInput5 0 = 5 from rfl]
      rw [show (1:ℝ) + (-1) * 1 = 0 by norm_num, show (1:ℝ) - (-1) * 1 = 2 by norm_num]
      rw [max_eq_left (by norm_num : (2:ℝ) ≤ 5)]
      exact min_eq_left (by norm_num)
    rw [hm, hs, hc]
    norm_num

/-- **C7** (amended): once warmed up, for any configured sigma multiplier
`k ≥ 0`, the vector returned by `filter_outliers` is element-wise within
`[mean − k·σ, mean + k·σ]` of the current FIFO population, whatever the input
sample. -/
theorem C7_clip_within_band {ι : Type} (st : OutlierState ι) (arr : ι → ℝ) (k : ℝ)
    (hk : 0 ≤ k) (h1 : 1 ≤ st.capacity) (h2 : st.samples.length = st.capacity) :
    (filter_outliers st arr k).1 = some (clipResult st arr k) ∧
    ∀ i, npMean st.samples i - k * npStd st.samples i ≤ clipResult st arr k i ∧
         clipResult st arr k i ≤ npMean st.samples i + k * npStd st.samples i := by
  constructor
  · unfold filter_outliers
    rw [if_neg (by omega)]
  · intro i
    have hσ : 0 ≤ npStd st.samples i := Real.sqrt_nonneg _
    have ht : 0 ≤ k * npStd st.samples i := mul_nonneg hk hσ
    unfold clipResult npClip
    exact ⟨le_min (by linarith) (le_max_right _ _), min_le_left _ _⟩

/-- Witness for the amended C7 on the concrete full FIFO with `k = 3`. -/
theorem C7_clip_within_band_witness :
    (filter_outliers fullOutlier outlierInput 3).1 =
      some (clipResult fullOutlier outlierInput 3) ∧
    ∀ i, npMean fullOutlier.samples i - 3 * npStd fullOutlier.samples i ≤
          clipResult fullOutlier outlierInput 3 i ∧
         clipResult fullOutlier outlierInput 3 i ≤
          npMean fullOutlier.samples i + 3 * npStd fullOutlier.samples i :=
  C7_clip_within_band fullOutlier outlierInput 3 (by norm_num)
    (by norm_num [fullOutlier]) (by simp [fullOutlier, samplePop])

/-! ### C8: IIR convergence -/

/-- **C8** (confirmed): after the IIR state is seeded, feeding the same vector
`v` repeatedly drives the smoothed state to `v`, the distance to `v` shrinking
geometrically by the factor `(1 − w)` on each call, per the recurrence
`state' = (w·sample + (1−w)·state) / (w + (1−w))` of `_filter_iir`. -/
theorem C8_iir_geometric {ι : Type} (w : ℝ) (hw0 : 0 < w) (hw1 : w < 1)
    (v s0 : ι → ℝ) (n : ℕ) (i : ι) :
    |iirIter w v s0 n i - v i| = (1 - w) ^ n * |s0 i - v i| := by
  induction n with
  | zero => simp [iirIter]
  | succ m ih =>
      have hstep : iirIter w v s0 (m + 1) i - v i
          = (1 - w) * (iirIter w v s0 m i - v i) := by
        show iirStep w v (iirIter w v s0 m) i - v i = _
        unfold iirStep npAverage2
        rw [show w + (1 - w) = 1 by ring, div_one]
        ring
      rw [hstep, abs_mul, abs_of_nonneg (by linarith : (0:ℝ) ≤ 1 - w), ih]
      ring

/-- Witness for C8: one step with `w = 1/2` halves the distance. -/
theorem C8_iir_geometric_witness :
    |iirIter (1/2) (fun _ => (0:ℝ)) (fun _ => (1:ℝ)) 1 (0 : Fin 1) - (fun _ => (0:ℝ)) (0 : Fin 1)|
      = (1 - 1/2) ^ 1 * |(fun _ => (1:ℝ)) (0 : Fin 1) - (fun _ => (0:ℝ)) (0 : Fin 1)| :=
  C8_iir_geometric (1/2) (by norm_num) (by norm_num) _ _ 1 0

/-! ### C9: the calibration identity -/

/-- **C9** (confirmed): for every hardware configuration (denominators of the
derived ratios nonzero, the construction-time invariant), a pixel whose raw
temperature equals the configured offset (`t_pp = 0`) and whose raw field
counts are all zero calibrates to temperature exactly `25.0` and flux exactly
`(0, 0, 0)`. -/
theorem C9_calibration_identity (cfg : Config) (hd : cfg.dec_len ≠ 0)
    (hxy : cfg.gain_xy ≠ 0) (hz : cfg.gain_z ≠ 0) (hs : cfg.supply ≠ 0) :
    (calculateSensor cfg 0 0 0 cfg.t_offset).1 = 25 ∧
    ∀ i, (calculateSensor cfg 0 0 0 cfg.t_offset).2 i = 0 := by
  have htemp : calculateTemp cfg cfg.t_offset = (25, 0) := by
    unfold calculateTemp
    norm_num
  constructor
  · simp [calculateSensor, htemp]
  · intro i
    fin_cases i <;>
      simp [calculateSensor, htemp, calculateTeslasXY, calculateTeslasZ]

/-- Witness for C9 at the default hardware configuration. -/
theorem C9_calibration_identity_witness :
    (calculateSensor sampleConfig 0 0 0 sampleConfig.t_offset).1 = 25 ∧
    ∀ i, (calculateSensor sampleConfig 0 0 0 sampleConfig.t_offset).2 i = 0 :=
  C9_calibration_identity sampleConfig (by norm_num [sampleConfig])
    (by norm_num [sampleConfig]) (by norm_num [sampleConfig]) (by norm_num [sampleConfig])

/-! ### C10: interpolation exactness -/

/-- **C10** (confirmed): any coefficient vector solving the augmented linear
system of the linear-kernel RBF fit (the system `RBFInterpolator` with
`kernel="linear"` and no smoothing solves for each joint's calibration table)
makes the fitted interpolant reproduce every training target exactly at the
corresponding training feature vector. -/
theorem C10_rbf_exact {n d : ℕ} (nodes : Fin n → Fin d → ℝ) (y : Fin n → ℝ)
    (v : Sum (Fin n) (Fin (d + 1)) → ℝ)
    (hfit : (fitMatrix nodes).mulVec v = fitRhs y) (j : Fin n) :
    rbfEval nodes v (nodes j) = y j := by
  have hj := congrFun hfit (Sum.inl j)
  simp only [Matrix.mulVec, Matrix.dotProduct, Fintype.sum_sum_type, fitMatrix, fitRhs,
    Matrix.of_apply, Sum.elim_inl, Fin.sum_univ_succ, Fin.cases_zero, Fin.cases_succ,
    one_mul] at hj
  unfold rbfEval
  rw [← hj]
  rw [Finset.sum_congr rfl (fun i _ => mul_comm (v (Sum.inl i))
    (linearKernel (euclidDist (nodes j) (nodes i))))]
  rw [Finset.sum_congr rfl (fun k _ => mul_comm (v (Sum.inr (Fin.succ k))) (nodes j k))]
  ring

/-- Witness for C10: a concrete two-sample, one-dimensional calibration table
(`features 0 and 1, angles 10 and 20`) with its explicit fit solution. -/
theorem C10_rbf_exact_witness : rbfEval rbfNodes rbfCoeffs (rbfNodes 0) = rbfTargets 0 :=
  C10_rbf_exact rbfNodes rbfTargets rbfCoeffs (by
    funext r
    rcases r with j | k
    · fin_cases j <;>
        simp [Matrix.mulVec, Matrix.dotProduct, Fintype.sum_sum_type, Fin.sum_univ_two,
          fitMatrix, fitRhs, rbfNodes, rbfTargets, rbfCoeffs, Fin.sum_univ_succ] <;>
        norm_num
    · fin_cases k <;>
        simp [Matrix.mulVec, Matrix.dotProduct, Fintype.sum_sum_type, Fin.sum_univ_two,
          fitMatrix, fitRhs, rbfNodes, rbfTargets, rbfCoeffs, Fin.sum_univ_succ]
  ) 0

end

end CloneSync
